import Mathlib

/-!
# Mutagen control plane: configuration validation and merging, session creation, daemon lifecycle

A shallow embedding of

* `pkg/session/configuration.go` (`Configuration.EnsureValid`, `MergeConfigurations`),
* `cmd/mutagen/create.go` (`createMain`),
* `cmd/mutagen/daemon.go` (`daemonMain`),

together with the properties stated about them.

Go `error` values are represented by their message (`none` is the nil error).
Effects on the outside world (spawning a process, taking the daemon lock,
registering services, deferred cleanups) are recorded in an explicit trace.
-/

namespace Mutagen

/-! ## Errors (`github.com/pkg/errors`) -/

/-- A Go `error`, represented by its message; `none` is the nil error. -/
abbrev GoError := Option String

/-- The call `errors.New(message)`: a non-nil error with the given message. -/
def errorsNew (message : String) : GoError := some message

/-- The call `errors.Wrap(err, message)`: nil when `err` is nil, otherwise an
error whose message is `message`, a colon, a blank and the message of `err`. -/
def errorsWrap (err : GoError) (message : String) : GoError :=
  match err with
  | none => none
  | some e => some (message ++ ": " ++ e)

/-! ## Configuration (`pkg/session/configuration.go`) -/

/-- The enumeration `sync.SynchronizationMode` (a protocol buffers enum). -/
abbrev sync.SynchronizationMode := Int
/-- The enumeration `sync.SymlinkMode`. -/
abbrev sync.SymlinkMode := Int
/-- The enumeration `filesystem.WatchMode`. -/
abbrev filesystem.WatchMode := Int
/-- The enumeration `sync.IgnoreVCSMode`. -/
abbrev sync.IgnoreVCSMode := Int
/-- The enumeration `sync.PermissionExposureLevel`. -/
abbrev sync.PermissionExposureLevel := Int

/-- The source of a configuration object (`ConfigurationSource`). -/
inductive ConfigurationSource
  | ConfigurationSourceSession
  | ConfigurationSourceGlobal
  | ConfigurationSourceCreate
deriving DecidableEq, Repr

open ConfigurationSource

/-- The session configuration message, with the fields that `EnsureValid`,
`snapshotGlobalConfiguration` and `MergeConfigurations` read and write. -/
structure Configuration where
  SynchronizationMode : sync.SynchronizationMode
  SymlinkMode : sync.SymlinkMode
  WatchMode : filesystem.WatchMode
  WatchPollingInterval : Nat
  DefaultIgnores : List String
  Ignores : List String
  IgnoreVCSMode : sync.IgnoreVCSMode
  PermissionExposureLevel : sync.PermissionExposureLevel
  AlphaPermissionExposureLevel : sync.PermissionExposureLevel
  BetaPermissionExposureLevel : sync.PermissionExposureLevel
deriving DecidableEq, Repr

/-- The declarations of packages `sync` and `filesystem` that the configuration
code calls and whose bodies lie outside the files at hand: the `IsDefault` and
`Supported` methods of the enumerations, the default constants that the code
compares against, and `sync.ValidIgnorePattern`. They are parameters of the
embedding; every general theorem holds for all of them. -/
structure Externals where
  SynchronizationMode_IsDefault : sync.SynchronizationMode → Bool
  SynchronizationMode_Supported : sync.SynchronizationMode → Bool
  SymlinkMode_SymlinkDefault : sync.SymlinkMode
  SymlinkMode_Supported : sync.SymlinkMode → Bool
  WatchMode_WatchDefault : filesystem.WatchMode
  WatchMode_Supported : filesystem.WatchMode → Bool
  IgnoreVCSMode_IgnoreVCSDefault : sync.IgnoreVCSMode
  IgnoreVCSMode_Supported : sync.IgnoreVCSMode → Bool
  PermissionExposureLevel_IsDefault : sync.PermissionExposureLevel → Bool
  PermissionExposureLevel_Supported : sync.PermissionExposureLevel → Bool
  ValidIgnorePattern : String → Bool

/-- The loop `for _, ignore := range ignores { if !sync.ValidIgnorePattern(ignore)
{ return errors.Errorf(format, ignore) } }`; `label` is the text of the format
before `%s`. The result is the error returned from inside the loop, if any. -/
def rangeIgnores (X : Externals) (label : String) : List String → GoError
  | [] => none
  | ignore :: rest =>
    if !X.ValidIgnorePattern ignore then
      some (label ++ ignore)
    else
      rangeIgnores X label rest

/-- The method `(c *Configuration) EnsureValid(source)`; `c = none` is the nil
receiver. -/
def EnsureValid (X : Externals) (c : Option Configuration) (source : ConfigurationSource) :
    GoError :=
  match c with
  | none => errorsNew "nil configuration"
  | some c =>
    if !X.SynchronizationMode_IsDefault c.SynchronizationMode
        && !X.SynchronizationMode_Supported c.SynchronizationMode then
      errorsNew "unknown or unsupported synchronization mode"
    else if c.SymlinkMode != X.SymlinkMode_SymlinkDefault
        && !X.SymlinkMode_Supported c.SymlinkMode then
      errorsNew "unknown or unsupported symlink mode"
    else if c.WatchMode != X.WatchMode_WatchDefault
        && !X.WatchMode_Supported c.WatchMode then
      errorsNew "unknown or unsupported watch mode"
    else if source == ConfigurationSourceCreate && decide (c.DefaultIgnores.length > 0) then
      errorsNew "create configuration with default ignores specified"
    else
      match rangeIgnores X "invalid default ignore pattern: " c.DefaultIgnores with
      | some e => some e
      | none =>
        if source == ConfigurationSourceGlobal && decide (c.Ignores.length > 0) then
          errorsNew "global configuration with ignores specified"
        else
          match rangeIgnores X "invalid ignore pattern: " c.Ignores with
          | some e => some e
          | none =>
            if c.IgnoreVCSMode != X.IgnoreVCSMode_IgnoreVCSDefault
                && !X.IgnoreVCSMode_Supported c.IgnoreVCSMode then
              errorsNew "unknown or unsupported VCS ignore mode"
            else if !X.PermissionExposureLevel_IsDefault c.PermissionExposureLevel
                && !X.PermissionExposureLevel_Supported c.PermissionExposureLevel then
              errorsNew "unknown or unsupported permission exposure level"
            else if source == ConfigurationSourceGlobal then
              if !X.PermissionExposureLevel_IsDefault c.AlphaPermissionExposureLevel then
                errorsNew
                  "global configuration with alpha-specific permission exposure level specified"
              else if !X.PermissionExposureLevel_IsDefault c.BetaPermissionExposureLevel then
                errorsNew
                  "global configuration with beta-specific permission exposure level specified"
              else
                none
            else
              if !X.PermissionExposureLevel_IsDefault c.AlphaPermissionExposureLevel
                  && !X.PermissionExposureLevel_Supported c.AlphaPermissionExposureLevel then
                errorsNew "unknown or unsupported alpha permission exposure level"
              else if !X.PermissionExposureLevel_IsDefault c.BetaPermissionExposureLevel
                  && !X.PermissionExposureLevel_Supported c.BetaPermissionExposureLevel then
                errorsNew "unknown or unsupported beta permission exposure level"
              else
                none

/-- The function `MergeConfigurations(session, global)`. -/
def MergeConfigurations (X : Externals) (session global : Configuration) : Configuration :=
  { SynchronizationMode :=
      if !X.SynchronizationMode_IsDefault session.SynchronizationMode then
        session.SynchronizationMode
      else
        global.SynchronizationMode
    SymlinkMode :=
      if session.SymlinkMode != X.SymlinkMode_SymlinkDefault then
        session.SymlinkMode
      else
        global.SymlinkMode
    WatchMode :=
      if session.WatchMode != X.WatchMode_WatchDefault then
        session.WatchMode
      else
        global.WatchMode
    WatchPollingInterval :=
      if session.WatchPollingInterval != 0 then
        session.WatchPollingInterval
      else
        global.WatchPollingInterval
    DefaultIgnores := global.DefaultIgnores
    Ignores := session.Ignores
    IgnoreVCSMode :=
      if session.IgnoreVCSMode != X.IgnoreVCSMode_IgnoreVCSDefault then
        session.IgnoreVCSMode
      else
        global.IgnoreVCSMode
    PermissionExposureLevel :=
      if !X.PermissionExposureLevel_IsDefault session.PermissionExposureLevel then
        session.PermissionExposureLevel
      else
        global.PermissionExposureLevel
    AlphaPermissionExposureLevel := session.AlphaPermissionExposureLevel
    BetaPermissionExposureLevel := session.BetaPermissionExposureLevel }

/-! ### Vocabulary of the properties -/

/-- The synchronization mode is default or supported. -/
def Externals.synchronizationModeOK (X : Externals) (m : sync.SynchronizationMode) : Bool :=
  X.SynchronizationMode_IsDefault m || X.SynchronizationMode_Supported m

/-- The symlink mode is default or supported. -/
def Externals.symlinkModeOK (X : Externals) (m : sync.SymlinkMode) : Bool :=
  m == X.SymlinkMode_SymlinkDefault || X.SymlinkMode_Supported m

/-- The watch mode is default or supported. -/
def Externals.watchModeOK (X : Externals) (m : filesystem.WatchMode) : Bool :=
  m == X.WatchMode_WatchDefault || X.WatchMode_Supported m

/-- The VCS ignore mode is default or supported. -/
def Externals.ignoreVCSModeOK (X : Externals) (m : sync.IgnoreVCSMode) : Bool :=
  m == X.IgnoreVCSMode_IgnoreVCSDefault || X.IgnoreVCSMode_Supported m

/-- A permission exposure level is default or supported. -/
def Externals.exposureLevelOK (X : Externals) (m : sync.PermissionExposureLevel) : Bool :=
  X.PermissionExposureLevel_IsDefault m || X.PermissionExposureLevel_Supported m

/-- The five enumeration fields shared by all levels of configuration
(synchronization mode, symlink mode, watch mode, VCS ignore mode, permission
exposure level) are each default or supported. -/
def Externals.sharedEnumsOK (X : Externals) (c : Configuration) : Bool :=
  X.synchronizationModeOK c.SynchronizationMode && X.symlinkModeOK c.SymlinkMode
    && X.watchModeOK c.WatchMode && X.ignoreVCSModeOK c.IgnoreVCSMode
    && X.exposureLevelOK c.PermissionExposureLevel

/-- All seven enumeration fields, the endpoint-specific exposure levels
included, are each default or supported. -/
def Externals.allEnumsOK (X : Externals) (c : Configuration) : Bool :=
  X.sharedEnumsOK c && X.exposureLevelOK c.AlphaPermissionExposureLevel
    && X.exposureLevelOK c.BetaPermissionExposureLevel

/-- Every pattern of the list is accepted by `sync.ValidIgnorePattern`. -/
def Externals.patternsValid (X : Externals) (patterns : List String) : Bool :=
  patterns.all X.ValidIgnorePattern

/-- An instance of the external declarations used to evaluate the code on
concrete inputs: every enumeration has default 0 and supported values 1 and 2,
and an ignore pattern is valid when it is not the empty string. -/
def sampleExternals : Externals :=
  { SynchronizationMode_IsDefault := fun m => m == 0
    SynchronizationMode_Supported := fun m => m == 1 || m == 2
    SymlinkMode_SymlinkDefault := 0
    SymlinkMode_Supported := fun m => m == 1 || m == 2
    WatchMode_WatchDefault := 0
    WatchMode_Supported := fun m => m == 1 || m == 2
    IgnoreVCSMode_IgnoreVCSDefault := 0
    IgnoreVCSMode_Supported := fun m => m == 1 || m == 2
    PermissionExposureLevel_IsDefault := fun m => m == 0
    PermissionExposureLevel_Supported := fun m => m == 1 || m == 2
    ValidIgnorePattern := fun p => p.length != 0 }

/-- The zero value `Configuration{}`. -/
def zeroConfiguration : Configuration :=
  { SynchronizationMode := 0, SymlinkMode := 0, WatchMode := 0, WatchPollingInterval := 0
    DefaultIgnores := [], Ignores := [], IgnoreVCSMode := 0, PermissionExposureLevel := 0
    AlphaPermissionExposureLevel := 0, BetaPermissionExposureLevel := 0 }

/-! ### Concrete configurations -/

/-- A global configuration whose only non-default field is a list of default
ignores holding the empty pattern. -/
def globalWithEmptyDefaultIgnore : Configuration :=
  { zeroConfiguration with DefaultIgnores := [""] }

/-- A global configuration that sets the shared fields only. -/
def sampleGlobal : Configuration :=
  { zeroConfiguration with
    SynchronizationMode := 2, WatchPollingInterval := 10, DefaultIgnores := [".git"]
    PermissionExposureLevel := 1 }

/-- A global configuration that (wrongly) carries per-session ignores. -/
def globalWithIgnores : Configuration :=
  { zeroConfiguration with Ignores := ["*.o"] }

/-- A session configuration overriding some of the shared fields. -/
def sampleSession : Configuration :=
  { zeroConfiguration with
    SymlinkMode := 1, Ignores := ["*.o"], PermissionExposureLevel := 2
    AlphaPermissionExposureLevel := 1 }

/-- A create configuration that (wrongly) carries default ignores. -/
def createWithDefaultIgnores : Configuration :=
  { zeroConfiguration with DefaultIgnores := ["build"] }

/-- A configuration with a watch mode outside the supported set of
`sampleExternals`. -/
def unsupportedWatchMode : Configuration :=
  { zeroConfiguration with WatchMode := 7 }

/-! ## Session creation (`cmd/mutagen/create.go`) -/

/-- The message `url.URL`, with the two fields `createMain` reads and writes. -/
structure URL where
  Protocol : Int
  Path : String
deriving DecidableEq, Repr

/-- The message `session.PromptResponse`, built positionally from the text
the user typed. -/
structure PromptResponse where
  Response : String
deriving DecidableEq, Repr

/-- The challenge carried by a `session.CreateResponse`. -/
structure Challenge where
  Message : String
  Prompt : String
deriving DecidableEq, Repr

/-- The message `session.CreateRequest`. -/
structure CreateRequest where
  Alpha : Option URL
  Beta : Option URL
  Response : Option PromptResponse
deriving DecidableEq, Repr

/-- The message `session.CreateResponse`; `Challenge = none` is the nil pointer. -/
structure CreateResponse where
  Challenge : Option Challenge
  Error : String
deriving DecidableEq, Repr

/-- The zero value that `var response session.CreateResponse` declares. -/
def CreateResponse.zero : CreateResponse :=
  { Challenge := none, Error := "" }

/-- The state of the client side of an RPC stream: the responses the server
has sent that are still to be read, and the requests the client has sent. -/
structure Stream where
  incoming : List CreateResponse
  outgoing : List CreateRequest
deriving DecidableEq, Repr

/-- The packages `url`, `rpc`, `ssh` and `path/filepath` as `createMain` calls
them; their bodies lie outside the files at hand, so they are parameters.
`Decode` receives its argument as `createMain` passes it, which is the VALUE of
the local variable `response`: being a Go call by value, it can change the
stream and return an error, and it cannot assign to the caller's variable. -/
structure CreateExternals where
  Protocol_Local : Int
  Parse : String → Except String URL
  Abs : String → Except String String
  Invoke : Except String Stream
  Encode : Stream → CreateRequest → GoError × Stream
  Decode : Stream → CreateResponse → GoError × Stream
  PromptCommandLine : String → String → Except String String

/-- The loop of `createMain` (lines 69 to 102), run for at most `fuel`
iterations; `none` means the iterations ran out, `some err` is the value
`createMain` returns. -/
def createLoop (E : CreateExternals) : Nat → Stream → Option GoError
  | 0, _ => none
  | fuel + 1, stream =>
    -- var response session.CreateResponse
    let response : CreateResponse := CreateResponse.zero
    -- stream.Decode(response)
    match E.Decode stream response with
    | (some err, _) => some (errorsWrap (some err) "unable to receive creation response")
    | (none, stream) =>
      match response.Challenge with
      | some challenge =>
        match E.PromptCommandLine challenge.Message challenge.Prompt with
        | .error err => some (errorsWrap (some err) "unable to perform prompting")
        | .ok r =>
          match E.Encode stream { Alpha := none, Beta := none, Response := some ⟨r⟩ } with
          | (some err, _) => some (errorsWrap (some err) "unable to send challenge response")
          | (none, stream) => createLoop E fuel stream
      | none =>
        if response.Error != "" then
          some (errorsWrap (errorsNew response.Error) "unable to create session")
        else
          some none

/-- The function `createMain`, given the two positional arguments that
`flagSet.ParseOrDie` returns. -/
def createMain (E : CreateExternals) (alphaArgument betaArgument : String) (fuel : Nat) :
    Option GoError :=
  match E.Parse alphaArgument with
  | .error err => some (errorsWrap (some err) "unable to parse alpha URL")
  | .ok alpha =>
    match E.Parse betaArgument with
    | .error err => some (errorsWrap (some err) "unable to parse beta URL")
    | .ok beta =>
      let alphaAbs : Except String URL :=
        if alpha.Protocol == E.Protocol_Local then
          match E.Abs alpha.Path with
          | .error err => .error err
          | .ok alphaPath => .ok { alpha with Path := alphaPath }
        else
          .ok alpha
      match alphaAbs with
      | .error err => some (errorsWrap (some err) "unable to make alpha path absolute")
      | .ok alpha =>
        let betaAbs : Except String URL :=
          if beta.Protocol == E.Protocol_Local then
            match E.Abs beta.Path with
            | .error err => .error err
            | .ok betaPath => .ok { beta with Path := betaPath }
          else
            .ok beta
        match betaAbs with
        | .error err => some (errorsWrap (some err) "unable to make beta path absolute")
        | .ok beta =>
          match E.Invoke with
          | .error err => some (errorsWrap (some err) "unable to invoke session creation")
          | .ok stream =>
            match E.Encode stream { Alpha := some alpha, Beta := some beta, Response := none } with
            | (some err, _) => some (errorsWrap (some err) "unable to send creation request")
            | (none, stream) => createLoop E fuel stream

/-- A daemon whose stream delivers no challenge and then the response
`CreateResponse{Error: "authentication failed"}`. `Decode`, handed a value,
consumes the next response and reports no error. -/
def rejectingDaemon : CreateExternals :=
  { Protocol_Local := 0
    Parse := fun text => .ok { Protocol := 0, Path := text }
    Abs := fun path => .ok path
    Invoke := .ok { incoming := [{ Challenge := none, Error := "authentication failed" }]
                    outgoing := [] }
    Encode := fun stream request => (none, { stream with outgoing := stream.outgoing ++ [request] })
    Decode := fun stream _ => (none, { stream with incoming := stream.incoming.tail })
    PromptCommandLine := fun _ _ => .ok "secret" }

/-- The same daemon seen through a `Decode` that refuses a target that is not
a pointer. -/
def rejectingDaemonStrictDecode : CreateExternals :=
  { rejectingDaemon with
    Decode := fun stream _ => (some "attempt to decode into a non-pointer", stream) }

/-! ## Daemon lifecycle (`cmd/mutagen/daemon.go`) -/

/-- The services that `daemonMain` registers with the RPC server. -/
inductive Service
  | daemonService
  | sshService
  | sessionService
deriving DecidableEq, Repr

/-- The calls of `daemonMain` that act on the outside world; a run records
them in the order in which it makes them. `ProcessStart args` is the call
`daemonProcess.Start()` for the command line `args`, `AcquireLock` the call
`daemon.AcquireLock()`, whatever their outcome. -/
inductive Effect
  | InvokeTerminate
  | StreamClose
  | ProcessStart (args : List String)
  | AcquireLock
  | LockUnlock
  | NewServer
  | NewDaemonService
  | NewSSHService
  | NewSessionService
  | Register (service : Service)
  | SessionShutdown
  | NewListener
  | ListenerClose
  | Serve
  | SignalNotify
deriving DecidableEq, Repr

/-- The three events the final `select` of `daemonMain` waits for: a signal
(given by the text `%s` prints for it), a termination request received by the
daemon service, and the return of `server.Serve` with its error. -/
inductive TerminationEvent
  | signal (sig : String)
  | daemonTermination
  | serverTermination (err : GoError)
deriving DecidableEq, Repr

/-- What the outside world answers to the calls of `daemonMain`: whether
another daemon instance holds the daemon lock (and the error the lock then
gives), the errors of the termination RPC, of starting the background process,
of creating the session service and of creating the listener, and the event
the `select` receives (`none`: no event ever arrives). -/
structure DaemonWorld where
  lockHeld : Bool
  lockError : String
  invokeTerminate : GoError
  processStart : GoError
  newSessionService : GoError
  newListener : GoError
  termination : Option TerminationEvent
deriving DecidableEq, Repr

/-- Modelled from the spec: `daemon.AcquireLock`, whose body is outside the
files at hand. The spec: "attempt exclusive acquisition of a single-instance
lock; fails with AlreadyRunning/LockError if another daemon holds it". -/
def AcquireLock (w : DaemonWorld) : GoError :=
  if w.lockHeld then some w.lockError else none

/-- A run of `daemonMain`: the effects performed, deferred calls included, and
the returned error; `result = none` means the call never returns. -/
structure DaemonRun where
  trace : List Effect
  result : Option GoError
deriving DecidableEq, Repr

/-- Leaving `daemonMain` with the value `err`: the deferred calls, kept with
the most recently deferred first, run after the effects performed so far. -/
def returning (trace defers : List Effect) (err : GoError) : DaemonRun :=
  { trace := trace ++ defers, result := some err }

/-- The final `select` of `daemonMain` (lines 111 to 118). -/
def selectTermination (trace defers : List Effect) : Option TerminationEvent → DaemonRun
  | none => { trace := trace, result := none }
  | some (.signal sig) => returning trace defers (some ("terminated by signal: " ++ sig))
  | some .daemonTermination => returning trace defers none
  | some (.serverTermination err) =>
    returning trace defers (errorsWrap err "premature server termination")

/-- The function `daemonMain`, given the values of the flags `--run` and
`--stop` that `flagSet.ParseOrDie` sets. -/
def daemonMain (run stop : Bool) (w : DaemonWorld) : DaemonRun :=
  if run && stop then
    returning [] [] (errorsNew "-r/--run with -s/--stop doesn't make sense")
  else if stop then
    match w.invokeTerminate with
    | some err =>
      returning [.InvokeTerminate, .StreamClose] []
        (errorsWrap (some err) "unable to invoke daemon termination")
    | none => returning [.InvokeTerminate, .StreamClose] [] none
  else if !run then
    match w.processStart with
    | some err =>
      returning [.ProcessStart ["mutagen", "daemon", "--run"]] []
        (errorsWrap (some err) "unable to fork daemon")
    | none => returning [.ProcessStart ["mutagen", "daemon", "--run"]] [] none
  else
    match AcquireLock w with
    | some err => returning [.AcquireLock] [] (errorsWrap (some err) "unable to acquire daemon lock")
    | none =>
      -- defer lock.Unlock()
      let defers : List Effect := [.LockUnlock]
      let trace : List Effect :=
        [.AcquireLock, .NewServer, .NewDaemonService, .Register .daemonService, .NewSSHService,
          .Register .sshService, .NewSessionService]
      match w.newSessionService with
      | some err => returning trace defers (errorsWrap (some err) "unable to create session service")
      | none =>
        let trace := trace ++ [.Register .sessionService]
        -- defer sessionService.Shutdown()
        let defers := Effect.SessionShutdown :: defers
        let trace := trace ++ [.NewListener]
        match w.newListener with
        | some err =>
          returning trace defers (errorsWrap (some err) "unable to create daemon listener")
        | none =>
          -- defer listener.Close()
          let defers := Effect.ListenerClose :: defers
          let trace := trace ++ [.Serve, .SignalNotify]
          selectTermination trace defers w.termination

/-- A world in which a daemon instance is running (the lock is held) and the
operating system starts processes without error. -/
def daemonRunningWorld : DaemonWorld :=
  { lockHeld := true
    lockError := "daemon lock already held"
    invokeTerminate := none
    processStart := none
    newSessionService := none
    newListener := none
    termination := none }

/-- A world in which no daemon is running and the daemon, once serving, is
asked to terminate through the daemon service. -/
def freshWorld : DaemonWorld :=
  { daemonRunningWorld with lockHeld := false, termination := some .daemonTermination }

/-- A world in which no daemon is running and the serving daemon receives an
interrupt signal. -/
def interruptedWorld : DaemonWorld :=
  { freshWorld with termination := some (.signal "interrupt") }

/-! ### Lemmas on validation -/

theorem rangeIgnores_eq_none_iff (X : Externals) (label : String) (l : List String) :
    rangeIgnores X label l = none ↔ X.patternsValid l = true := by
  induction l with
  | nil => simp [rangeIgnores, Externals.patternsValid]
  | cons p rest ih =>
    unfold rangeIgnores
    by_cases h : X.ValidIgnorePattern p = true
    · simpa [h, Externals.patternsValid] using ih
    · simp [h, Externals.patternsValid]

theorem ite_some_eq_none_iff (p : Prop) [Decidable p] (e : String) (r : GoError) :
    (if p then errorsNew e else r) = none ↔ (¬p ∧ r = none) := by
  by_cases h : p <;> simp [h, errorsNew]

theorem match_some_eq_none_iff (x r : GoError) :
    (match x with
      | some e => some e
      | none => r) = none ↔ (x = none ∧ r = none) := by
  cases x <;> simp

theorem not_both_not_iff (a b : Bool) : ¬((!a && !b) = true) ↔ (a || b) = true := by
  cases a <;> cases b <;> simp

theorem not_bne_and_not_iff (x d : Int) (b : Bool) :
    ¬((x != d && !b) = true) ↔ (x == d || b) = true := by
  by_cases h : x = d <;> cases b <;> simp [h]

theorem not_not_eq_true_iff (a : Bool) : ¬((!a) = true) ↔ a = true := by
  cases a <;> simp

theorem not_source_and_nonempty_iff (s t : ConfigurationSource) (l : List String) :
    ¬((s == t && decide (l.length > 0)) = true) ↔ (s = t → l = []) := by
  by_cases h : s = t <;> cases l <;> simp [h]

theorem not_nonempty_iff (l : List String) : ¬(decide (l.length > 0) = true) ↔ l = [] := by
  cases l <;> simp

/-- The exact acceptance condition of `EnsureValid` on a non-nil receiver. -/
theorem EnsureValid_eq_none_iff (X : Externals) (c : Configuration)
    (source : ConfigurationSource) :
    EnsureValid X (some c) source = none ↔
      (X.sharedEnumsOK c = true
        ∧ (source = ConfigurationSourceCreate → c.DefaultIgnores = [])
        ∧ X.patternsValid c.DefaultIgnores = true
        ∧ (source = ConfigurationSourceGlobal → c.Ignores = [])
        ∧ X.patternsValid c.Ignores = true
        ∧ (if source = ConfigurationSourceGlobal then
            X.PermissionExposureLevel_IsDefault c.AlphaPermissionExposureLevel = true
              ∧ X.PermissionExposureLevel_IsDefault c.BetaPermissionExposureLevel = true
          else
            X.exposureLevelOK c.AlphaPermissionExposureLevel = true
              ∧ X.exposureLevelOK c.BetaPermissionExposureLevel = true)) := by
  unfold EnsureValid
  cases source <;>
  simp only [ite_some_eq_none_iff, match_some_eq_none_iff, rangeIgnores_eq_none_iff,
    beq_self_eq_true, reduceCtorEq, beq_iff_eq, if_true, if_false, not_both_not_iff,
    not_bne_and_not_iff, not_not_eq_true_iff, not_source_and_nonempty_iff, not_nonempty_iff,
    Bool.true_and,
    Externals.sharedEnumsOK, Externals.synchronizationModeOK,
    Externals.symlinkModeOK, Externals.watchModeOK, Externals.ignoreVCSModeOK,
    Externals.exposureLevelOK, and_true, true_implies, false_implies, true_and] <;>
  simp only [Bool.and_eq_true] <;>
  apply iff_of_eq <;>
  ac_rfl

/-! ### Lemmas on merging -/

theorem merge_synchronizationMode_ok (X : Externals) (s g : Configuration)
    (hs : X.synchronizationModeOK s.SynchronizationMode = true)
    (hg : X.synchronizationModeOK g.SynchronizationMode = true) :
    X.synchronizationModeOK (MergeConfigurations X s g).SynchronizationMode = true := by
  simp only [MergeConfigurations]
  split <;> assumption

theorem merge_symlinkMode_ok (X : Externals) (s g : Configuration)
    (hs : X.symlinkModeOK s.SymlinkMode = true) (hg : X.symlinkModeOK g.SymlinkMode = true) :
    X.symlinkModeOK (MergeConfigurations X s g).SymlinkMode = true := by
  simp only [MergeConfigurations]
  split <;> assumption

theorem merge_watchMode_ok (X : Externals) (s g : Configuration)
    (hs : X.watchModeOK s.WatchMode = true) (hg : X.watchModeOK g.WatchMode = true) :
    X.watchModeOK (MergeConfigurations X s g).WatchMode = true := by
  simp only [MergeConfigurations]
  split <;> assumption

theorem merge_ignoreVCSMode_ok (X : Externals) (s g : Configuration)
    (hs : X.ignoreVCSModeOK s.IgnoreVCSMode = true)
    (hg : X.ignoreVCSModeOK g.IgnoreVCSMode = true) :
    X.ignoreVCSModeOK (MergeConfigurations X s g).IgnoreVCSMode = true := by
  simp only [MergeConfigurations]
  split <;> assumption

theorem merge_exposureLevel_ok (X : Externals) (s g : Configuration)
    (hs : X.exposureLevelOK s.PermissionExposureLevel = true)
    (hg : X.exposureLevelOK g.PermissionExposureLevel = true) :
    X.exposureLevelOK (MergeConfigurations X s g).PermissionExposureLevel = true := by
  simp only [MergeConfigurations]
  split <;> assumption

theorem sharedEnumsOK_iff (X : Externals) (c : Configuration) :
    X.sharedEnumsOK c = true ↔
      (X.synchronizationModeOK c.SynchronizationMode = true
        ∧ X.symlinkModeOK c.SymlinkMode = true
        ∧ X.watchModeOK c.WatchMode = true
        ∧ X.ignoreVCSModeOK c.IgnoreVCSMode = true
        ∧ X.exposureLevelOK c.PermissionExposureLevel = true) := by
  simp only [Externals.sharedEnumsOK, Bool.and_eq_true, and_assoc]

theorem merge_sharedEnumsOK (X : Externals) (s g : Configuration)
    (hs : X.sharedEnumsOK s = true) (hg : X.sharedEnumsOK g = true) :
    X.sharedEnumsOK (MergeConfigurations X s g) = true := by
  rw [sharedEnumsOK_iff] at hs hg ⊢
  obtain ⟨s1, s2, s3, s4, s5⟩ := hs
  obtain ⟨g1, g2, g3, g4, g5⟩ := hg
  exact ⟨merge_synchronizationMode_ok X s g s1 g1, merge_symlinkMode_ok X s g s2 g2,
    merge_watchMode_ok X s g s3 g3, merge_ignoreVCSMode_ok X s g s4 g4,
    merge_exposureLevel_ok X s g s5 g5⟩

/-! ## Properties of validation and merging -/

/-- C1, as stated, fails: a global configuration with no per-session ignores,
default endpoint-specific exposure levels and every shared enumeration default
is still rejected when one of its default ignore patterns is invalid. -/
theorem C1_counterexample_invalid_default_ignore :
    globalWithEmptyDefaultIgnore.Ignores = []
      ∧ sampleExternals.PermissionExposureLevel_IsDefault
          globalWithEmptyDefaultIgnore.AlphaPermissionExposureLevel = true
      ∧ sampleExternals.PermissionExposureLevel_IsDefault
          globalWithEmptyDefaultIgnore.BetaPermissionExposureLevel = true
      ∧ sampleExternals.sharedEnumsOK globalWithEmptyDefaultIgnore = true
      ∧ EnsureValid sampleExternals (some globalWithEmptyDefaultIgnore) ConfigurationSourceGlobal
          = some "invalid default ignore pattern: " := by
  decide

/-- C1, amended: for a non-nil configuration and the global source,
`EnsureValid` returns an error if the per-session ignore list is non-empty or
the alpha-specific or beta-specific exposure level is not default; otherwise it
returns no error provided the five shared enumerations are default or supported
and every default ignore pattern is valid. -/
theorem C1_global_validation (X : Externals) (c : Configuration) :
    ((c.Ignores ≠ []
        ∨ X.PermissionExposureLevel_IsDefault c.AlphaPermissionExposureLevel = false
        ∨ X.PermissionExposureLevel_IsDefault c.BetaPermissionExposureLevel = false) →
      EnsureValid X (some c) ConfigurationSourceGlobal ≠ none)
    ∧ (¬(c.Ignores ≠ []
          ∨ X.PermissionExposureLevel_IsDefault c.AlphaPermissionExposureLevel = false
          ∨ X.PermissionExposureLevel_IsDefault c.BetaPermissionExposureLevel = false) →
        X.sharedEnumsOK c = true →
        X.patternsValid c.DefaultIgnores = true →
        EnsureValid X (some c) ConfigurationSourceGlobal = none) := by
  constructor
  · intro h hn
    rw [EnsureValid_eq_none_iff] at hn
    obtain ⟨-, -, -, hI, -, hAB⟩ := hn
    simp only [if_true] at hAB
    rcases h with h | h | h
    · exact h (hI rfl)
    · rw [hAB.1] at h
      exact Bool.noConfusion h
    · rw [hAB.2] at h
      exact Bool.noConfusion h
  · intro h hE hD
    rw [EnsureValid_eq_none_iff]
    simp only [not_or, not_not, Bool.not_eq_false] at h
    obtain ⟨hI, hA, hB⟩ := h
    refine ⟨hE, ?_, hD, fun _ => hI, ?_, ?_⟩
    · intro hsrc
      cases hsrc
    · rw [hI]
      rfl
    · simp only [if_true]
      exact ⟨hA, hB⟩

/-- C1, amended, evaluated: a global configuration with per-session ignores is
rejected, and one that sets shared fields and valid default ignores only is
accepted. -/
theorem C1_global_validation_witness :
    EnsureValid sampleExternals (some globalWithIgnores) ConfigurationSourceGlobal ≠ none
      ∧ EnsureValid sampleExternals (some sampleGlobal) ConfigurationSourceGlobal = none :=
  ⟨(C1_global_validation sampleExternals globalWithIgnores).1 (Or.inl (by decide)),
    (C1_global_validation sampleExternals sampleGlobal).2 (by decide) (by decide) (by decide)⟩

/-- C2: for a non-nil configuration whose enumerations are all default or
supported and whose per-session ignore patterns are all valid, `EnsureValid`
with the create source returns an error exactly when `DefaultIgnores` is
non-empty. -/
theorem C2_create_validation (X : Externals) (c : Configuration)
    (hEnums : X.allEnumsOK c = true) (hIgnores : X.patternsValid c.Ignores = true) :
    EnsureValid X (some c) ConfigurationSourceCreate ≠ none ↔ c.DefaultIgnores ≠ [] := by
  simp only [Externals.allEnumsOK, Bool.and_eq_true] at hEnums
  obtain ⟨⟨hShared, hA⟩, hB⟩ := hEnums
  rw [not_iff_not, EnsureValid_eq_none_iff]
  constructor
  · intro h
    exact h.2.1 rfl
  · intro hD
    refine ⟨hShared, fun _ => hD, ?_, ?_, hIgnores, ?_⟩
    · rw [hD]
      rfl
    · intro hsrc
      cases hsrc
    · rw [if_neg (by decide)]
      exact ⟨hA, hB⟩

/-- C2, evaluated: a create configuration with one default ignore is rejected. -/
theorem C2_create_validation_witness :
    EnsureValid sampleExternals (some createWithDefaultIgnores) ConfigurationSourceCreate ≠ none :=
  (C2_create_validation sampleExternals createWithDefaultIgnores (by decide) (by decide)).2
    (by decide)

/-- C3: `MergeConfigurations` is total and, in its result, each scalar field
is the session value when that value is not the default (0 for the polling
interval) and the global value otherwise; `DefaultIgnores` is the global list,
`Ignores` the session list, and the alpha and beta exposure levels are the
session values. -/
theorem C3_merge_fields (X : Externals) (session global : Configuration) :
    (X.SynchronizationMode_IsDefault session.SynchronizationMode = false →
        (MergeConfigurations X session global).SynchronizationMode = session.SynchronizationMode)
    ∧ (X.SynchronizationMode_IsDefault session.SynchronizationMode = true →
        (MergeConfigurations X session global).SynchronizationMode = global.SynchronizationMode)
    ∧ (session.SymlinkMode ≠ X.SymlinkMode_SymlinkDefault →
        (MergeConfigurations X session global).SymlinkMode = session.SymlinkMode)
    ∧ (session.SymlinkMode = X.SymlinkMode_SymlinkDefault →
        (MergeConfigurations X session global).SymlinkMode = global.SymlinkMode)
    ∧ (session.WatchMode ≠ X.WatchMode_WatchDefault →
        (MergeConfigurations X session global).WatchMode = session.WatchMode)
    ∧ (session.WatchMode = X.WatchMode_WatchDefault →
        (MergeConfigurations X session global).WatchMode = global.WatchMode)
    ∧ (session.WatchPollingInterval ≠ 0 →
        (MergeConfigurations X session global).WatchPollingInterval
          = session.WatchPollingInterval)
    ∧ (session.WatchPollingInterval = 0 →
        (MergeConfigurations X session global).WatchPollingInterval
          = global.WatchPollingInterval)
    ∧ (session.IgnoreVCSMode ≠ X.IgnoreVCSMode_IgnoreVCSDefault →
        (MergeConfigurations X session global).IgnoreVCSMode = session.IgnoreVCSMode)
    ∧ (session.IgnoreVCSMode = X.IgnoreVCSMode_IgnoreVCSDefault →
        (MergeConfigurations X session global).IgnoreVCSMode = global.IgnoreVCSMode)
    ∧ (X.PermissionExposureLevel_IsDefault session.PermissionExposureLevel = false →
        (MergeConfigurations X session global).PermissionExposureLevel
          = session.PermissionExposureLevel)
    ∧ (X.PermissionExposureLevel_IsDefault session.PermissionExposureLevel = true →
        (MergeConfigurations X session global).PermissionExposureLevel
          = global.PermissionExposureLevel)
    ∧ (MergeConfigurations X session global).DefaultIgnores = global.DefaultIgnores
    ∧ (MergeConfigurations X session global).Ignores = session.Ignores
    ∧ (MergeConfigurations X session global).AlphaPermissionExposureLevel
        = session.AlphaPermissionExposureLevel
    ∧ (MergeConfigurations X session global).BetaPermissionExposureLevel
        = session.BetaPermissionExposureLevel := by
  refine ⟨?_, ?_, ?_, ?_, ?_, ?_, ?_, ?_, ?_, ?_, ?_, ?_, rfl, rfl, rfl, rfl⟩ <;>
  intro h <;>
  simp [MergeConfigurations, h]

/-- C3, evaluated on a session that overrides the symlink mode and the exposure
level and a global configuration that sets the synchronization mode. -/
theorem C3_merge_fields_witness :
    (MergeConfigurations sampleExternals sampleSession sampleGlobal).SynchronizationMode = 2
      ∧ (MergeConfigurations sampleExternals sampleSession sampleGlobal).SymlinkMode = 1 :=
  ⟨(C3_merge_fields sampleExternals sampleSession sampleGlobal).2.1 (by decide),
    (C3_merge_fields sampleExternals sampleSession sampleGlobal).2.2.1 (by decide)⟩

/-- C4: for every source and every non-nil configuration, if some enumeration
field (synchronization mode, symlink mode, watch mode, VCS ignore mode,
exposure level, alpha or beta exposure level) is neither default nor supported,
`EnsureValid` returns an error. -/
theorem C4_unsupported_enum_rejected (X : Externals) (c : Configuration)
    (source : ConfigurationSource) (h : X.allEnumsOK c = false) :
    EnsureValid X (some c) source ≠ none := by
  intro hn
  rw [EnsureValid_eq_none_iff] at hn
  obtain ⟨hShared, -, -, -, -, hAB⟩ := hn
  have hOK : X.exposureLevelOK c.AlphaPermissionExposureLevel = true
      ∧ X.exposureLevelOK c.BetaPermissionExposureLevel = true := by
    split at hAB
    · simp only [Externals.exposureLevelOK, hAB.1, hAB.2, Bool.true_or, and_self]
    · exact hAB
  simp only [Externals.allEnumsOK, hShared, hOK.1, hOK.2, Bool.and_self] at h
  exact Bool.noConfusion h

/-- C4, evaluated: a watch mode outside the supported set is rejected for a
session configuration. -/
theorem C4_unsupported_enum_rejected_witness :
    EnsureValid sampleExternals (some unsupportedWatchMode) ConfigurationSourceSession ≠ none :=
  C4_unsupported_enum_rejected sampleExternals unsupportedWatchMode ConfigurationSourceSession
    (by decide)

/-- C5: merging the result of a merge with the same global configuration again
changes nothing: `MergeConfigurations (MergeConfigurations session global) global`
equals `MergeConfigurations session global`. -/
theorem C5_merge_idempotent (X : Externals) (session global : Configuration) :
    MergeConfigurations X (MergeConfigurations X session global) global
      = MergeConfigurations X session global := by
  simp only [MergeConfigurations, Configuration.mk.injEq, and_true, true_and]
  refine ⟨?_, ?_, ?_, ?_, ?_, ?_⟩ <;> split_ifs <;> simp_all

/-- C10: if the session configuration is valid for the session source and the
global configuration is valid for the global source, their merge is valid for
the session source. -/
theorem C10_merge_preserves_validity (X : Externals) (session global : Configuration)
    (hs : EnsureValid X (some session) ConfigurationSourceSession = none)
    (hg : EnsureValid X (some global) ConfigurationSourceGlobal = none) :
    EnsureValid X (some (MergeConfigurations X session global)) ConfigurationSourceSession
      = none := by
  rw [EnsureValid_eq_none_iff] at hs hg ⊢
  obtain ⟨sE, -, -, -, sI, sAB⟩ := hs
  obtain ⟨gE, -, gD, -, -, -⟩ := hg
  refine ⟨merge_sharedEnumsOK X session global sE gE, ?_, gD, ?_, sI, ?_⟩
  · intro hsrc
    cases hsrc
  · intro hsrc
    cases hsrc
  · rw [if_neg (by decide)] at sAB ⊢
    exact sAB

/-- C10, evaluated on a valid session configuration and a valid global one. -/
theorem C10_merge_preserves_validity_witness :
    EnsureValid sampleExternals (some (MergeConfigurations sampleExternals sampleSession sampleGlobal))
      ConfigurationSourceSession = none :=
  C10_merge_preserves_validity sampleExternals sampleSession sampleGlobal (by decide) (by decide)

/-! ## Properties of session creation -/

/-- Whatever the stream holds and whatever `Decode` does with the value it is
handed, one iteration of the loop ends `createMain`: with success, or with the
error of `Decode` wrapped as a failure to receive. -/
theorem createLoop_result (E : CreateExternals) (fuel : Nat) (stream : Stream) :
    createLoop E (fuel + 1) stream = some none
      ∨ ∃ e, createLoop E (fuel + 1) stream
          = some (some ("unable to receive creation response" ++ ": " ++ e)) := by
  unfold createLoop
  rcases h : E.Decode stream CreateResponse.zero with ⟨err, stream2⟩
  cases err with
  | none =>
    left
    simp only [h]
    simp [CreateResponse.zero]
  | some e =>
    right
    refine ⟨e, ?_⟩
    simp only [h]
    simp [errorsWrap]

theorem receive_ne_create (e message : String) :
    "unable to receive creation response" ++ ": " ++ e
      ≠ "unable to create session" ++ ": " ++ message := by
  intro h
  have h2 := congrArg String.data h
  simp [String.data_append] at h2

/-- The loop never returns the error of the server wrapped with "unable to
create session". -/
theorem createLoop_never_reports_server_error (E : CreateExternals) (fuel : Nat)
    (stream : Stream) (message : String) :
    createLoop E (fuel + 1) stream
      ≠ some (errorsWrap (errorsNew message) "unable to create session") := by
  intro h
  rcases createLoop_result E fuel stream with h1 | ⟨e, h1⟩
  · rw [h1] at h
    simp [errorsWrap, errorsNew] at h
  · rw [h1] at h
    simp only [errorsWrap, errorsNew, Option.some.injEq] at h
    exact receive_ne_create e message h

/-- C6 does not hold of the code. The daemon answers the create request with
`CreateResponse{Error: "authentication failed"}`. `createMain` passes the value
of `response` to `Decode`, not its address, so `response` keeps its zero value:
whatever `Decode` does, `createMain` reports success or a failure to receive,
and never the server's error wrapped with "unable to create session". -/
theorem C6_server_error_not_surfaced
    (decode : Stream → CreateResponse → GoError × Stream) (fuel : Nat) :
    (createMain { rejectingDaemon with Decode := decode } "/tmp/a" "ssh://host/b" (fuel + 1)
        = some none
      ∨ ∃ e, createMain { rejectingDaemon with Decode := decode } "/tmp/a" "ssh://host/b"
          (fuel + 1) = some (some ("unable to receive creation response" ++ ": " ++ e)))
    ∧ createMain { rejectingDaemon with Decode := decode } "/tmp/a" "ssh://host/b" (fuel + 1)
        ≠ some (some "unable to create session: authentication failed") := by
  have hmain : createMain { rejectingDaemon with Decode := decode } "/tmp/a" "ssh://host/b"
      (fuel + 1)
      = createLoop { rejectingDaemon with Decode := decode } (fuel + 1)
          { incoming := [{ Challenge := none, Error := "authentication failed" }]
            outgoing := [{ Alpha := some { Protocol := 0, Path := "/tmp/a" }
                           Beta := some { Protocol := 0, Path := "ssh://host/b" }
                           Response := none }] } := by
    simp [createMain, rejectingDaemon]
  rw [hmain]
  refine ⟨createLoop_result _ fuel _, ?_⟩
  have h := createLoop_never_reports_server_error { rejectingDaemon with Decode := decode } fuel
    { incoming := [{ Challenge := none, Error := "authentication failed" }]
      outgoing := [{ Alpha := some { Protocol := 0, Path := "/tmp/a" }
                     Beta := some { Protocol := 0, Path := "ssh://host/b" }
                     Response := none }] } "authentication failed"
  intro hc
  apply h
  rw [hc]
  decide

/-- With a `Decode` that consumes the response, `createMain` reports success
although the daemon answered with an error. -/
theorem createMain_rejectingDaemon :
    createMain rejectingDaemon "/tmp/a" "ssh://host/b" 1 = some none := by
  decide

/-- With a `Decode` that refuses a target that is not a pointer, `createMain`
reports a failure to receive. -/
theorem createMain_rejectingDaemonStrictDecode :
    createMain rejectingDaemonStrictDecode "/tmp/a" "ssh://host/b" 1
      = some (some "unable to receive creation response: attempt to decode into a non-pointer") := by
  decide

/-! ## Properties of the daemon lifecycle -/

/-- C7, as stated, fails: with a daemon instance running (the lock held), a
start (neither flag set) returns success and has started a process. -/
theorem C7_counterexample_start_spawns :
    daemonRunningWorld.lockHeld = true
      ∧ (daemonMain false false daemonRunningWorld).result = some none
      ∧ Effect.ProcessStart ["mutagen", "daemon", "--run"]
          ∈ (daemonMain false false daemonRunningWorld).trace := by
  decide

/-- C7, amended: with a daemon instance running (the lock held), a start
performs exactly one effect, the call `daemonProcess.Start()` for the
background process `mutagen daemon --run`, and returns success exactly when
that call succeeds; the process so started, which is `daemonMain` under
`--run`, fails to acquire the lock and returns an error having created no
server, service or listener, so one serving instance remains. -/
theorem C7_start_when_running (w : DaemonWorld) (hHeld : w.lockHeld = true) :
    (daemonMain false false w).trace = [Effect.ProcessStart ["mutagen", "daemon", "--run"]]
      ∧ ((daemonMain false false w).result = some none ↔ w.processStart = none)
      ∧ daemonMain true false w
          = { trace := [Effect.AcquireLock]
              result := some (some ("unable to acquire daemon lock" ++ ": " ++ w.lockError)) } := by
  refine ⟨?_, ?_, ?_⟩
  · cases h : w.processStart <;> simp [daemonMain, returning, h]
  · cases h : w.processStart <;> simp [daemonMain, returning, errorsWrap, h]
  · simp [daemonMain, AcquireLock, hHeld, returning, errorsWrap]

/-- C7, amended, evaluated in a world with a running daemon. -/
theorem C7_start_when_running_witness :
    (daemonMain false false daemonRunningWorld).trace
        = [Effect.ProcessStart ["mutagen", "daemon", "--run"]]
      ∧ (daemonMain true false daemonRunningWorld).trace = [Effect.AcquireLock] :=
  ⟨(C7_start_when_running daemonRunningWorld rfl).1,
    congrArg DaemonRun.trace (C7_start_when_running daemonRunningWorld rfl).2.2⟩

/-- C8: on every run of `daemonMain` that acquires the daemon lock and
returns, `lock.Unlock` is the last effect and happens once, and when the
session service was created its `Shutdown` happens, before `lock.Unlock`. -/
theorem C8_lock_released_last (run stop : Bool) (w : DaemonWorld) (err : GoError)
    (hAttempt : Effect.AcquireLock ∈ (daemonMain run stop w).trace)
    (hAcquired : AcquireLock w = none)
    (hReturns : (daemonMain run stop w).result = some err) :
    (daemonMain run stop w).trace.getLast? = some Effect.LockUnlock
      ∧ (daemonMain run stop w).trace.count Effect.LockUnlock = 1
      ∧ (w.newSessionService = none →
          Effect.SessionShutdown ∈ (daemonMain run stop w).trace
            ∧ (daemonMain run stop w).trace.indexOf Effect.SessionShutdown
                < (daemonMain run stop w).trace.indexOf Effect.LockUnlock) := by
  cases run <;> cases stop
  · exfalso
    cases h : w.processStart <;> simp [daemonMain, returning, h] at hAttempt
  · exfalso
    cases h : w.invokeTerminate <;> simp [daemonMain, returning, h] at hAttempt
  · have hm : daemonMain true false w
        = match w.newSessionService with
          | some _ =>
            { trace := [.AcquireLock, .NewServer, .NewDaemonService, .Register .daemonService,
                .NewSSHService, .Register .sshService, .NewSessionService, .LockUnlock]
              result := (daemonMain true false w).result }
          | none =>
            match w.newListener with
            | some _ =>
              { trace := [.AcquireLock, .NewServer, .NewDaemonService, .Register .daemonService,
                  .NewSSHService, .Register .sshService, .NewSessionService,
                  .Register .sessionService, .NewListener, .SessionShutdown, .LockUnlock]
                result := (daemonMain true false w).result }
            | none =>
              { trace := [.AcquireLock, .NewServer, .NewDaemonService, .Register .daemonService,
                  .NewSSHService, .Register .sshService, .NewSessionService,
                  .Register .sessionService, .NewListener, .Serve, .SignalNotify,
                  .ListenerClose, .SessionShutdown, .LockUnlock]
                result := (daemonMain true false w).result } := by
      cases hs : w.newSessionService with
      | some e => simp [daemonMain, hAcquired, hs, returning]
      | none =>
        cases hl : w.newListener with
        | some e => simp [daemonMain, hAcquired, hs, hl, returning]
        | none =>
          cases ht : w.termination with
          | none => simp [daemonMain, hAcquired, hs, hl, ht, selectTermination] at hReturns
          | some ev =>
            cases ev <;> simp [daemonMain, hAcquired, hs, hl, ht, selectTermination, returning]
    rw [hm]
    cases hs : w.newSessionService with
    | some e => simp
    | none =>
      cases hl : w.newListener with
      | some e =>
        dsimp only
        exact ⟨by decide, by decide, fun _ => ⟨by decide, by decide⟩⟩
      | none =>
        dsimp only
        exact ⟨by decide, by decide, fun _ => ⟨by decide, by decide⟩⟩
  · exfalso
    simp [daemonMain, returning] at hAttempt

/-- C8, evaluated on a daemon that serves and is then asked to terminate. -/
theorem C8_lock_released_last_witness :
    (daemonMain true false freshWorld).trace.getLast? = some Effect.LockUnlock
      ∧ (daemonMain true false freshWorld).trace.count Effect.LockUnlock = 1
      ∧ (freshWorld.newSessionService = none →
          Effect.SessionShutdown ∈ (daemonMain true false freshWorld).trace
            ∧ (daemonMain true false freshWorld).trace.indexOf Effect.SessionShutdown
                < (daemonMain true false freshWorld).trace.indexOf Effect.LockUnlock) :=
  C8_lock_released_last true false freshWorld none (by decide) rfl rfl

/-- C9: once serving, a signal makes `daemonMain` return the error
"terminated by signal: " followed by the signal, a termination request from the
daemon service makes it return no error, and an error returned by the serving
loop is returned wrapped with "premature server termination". -/
theorem C9_termination_result (w : DaemonWorld)
    (hAcquired : AcquireLock w = none) (hSession : w.newSessionService = none)
    (hListener : w.newListener = none) :
    (∀ sig, w.termination = some (.signal sig) →
        (daemonMain true false w).result = some (some ("terminated by signal: " ++ sig)))
      ∧ (w.termination = some .daemonTermination → (daemonMain true false w).result = some none)
      ∧ (∀ e, w.termination = some (.serverTermination (some e)) →
          (daemonMain true false w).result
            = some (some ("premature server termination" ++ ": " ++ e))) := by
  refine ⟨?_, ?_, ?_⟩ <;>
  intros <;>
  simp_all [daemonMain, selectTermination, returning, errorsWrap]

/-- C9, evaluated: a serving daemon that receives an interrupt signal. -/
theorem C9_termination_result_witness :
    (daemonMain true false interruptedWorld).result
      = some (some "terminated by signal: interrupt") :=
  (C9_termination_result interruptedWorld rfl rfl rfl).1 "interrupt" rfl

end Mutagen
